import Mathlib

/-!
# bootkube: `pkg/bootkube/create.go`

A shallow embedding of the asset bootstrap code (`CreateAssets`, `createAssets`,
`shouldRetry`, `shouldQuit`, `prioritizeAssetCreation`) and the properties
established about it.

Conventions of the embedding.

* A Go pointer that may be `nil` is an `Option`; a slice `[]*resource.Info` is a
  `List (Option Info)`.
* A Go function that can panic (nil dereference, failed type assertion) returns an
  `Option`, `none` being the panic.
* A Go `error` result is an `Option GoError`, `none` being `nil`.
* Go strings are Lean strings (valid UTF-8 text); the only string operations used are
  equality, concatenation and trimming the one-byte ASCII suffix `"s"`, on which
  byte-wise and character-wise reading agree.
* The rendering of the format verb `%q`, `strconv.Quote` of the Go library, is not part
  of this code and is a parameter `goQuote` of every function that formats with it.
-/

set_option autoImplicit false

namespace Bootkube

/-! ## Data model -/

/-- The part of `meta.RESTMapping` the code reads: the plural resource name. -/
structure RESTMapping where
  Resource : String
deriving DecidableEq, Repr

/-- The fields of `resource.Info` the code reads. `Object` stands for the decoded
payload, which the code only passes through to the creation call. `Mapping` is set on
every `Info` a `resource.Builder` yields and is taken as present. -/
structure Info where
  Mapping : RESTMapping
  Namespace : String
  Name : String
  Source : String
  Object : String
deriving DecidableEq, Repr

/-- The fields of `unversioned.StatusDetails` the code reads. -/
structure StatusDetails where
  Name : String
  Kind : String
deriving DecidableEq, Repr

/-- The value of `unversioned.Status`: `Reason` is the string-typed `StatusReason`,
`Details` is a pointer and may be nil. -/
structure Status where
  Message : String
  Reason : String
  Details : Option StatusDetails
  Code : Int
deriving DecidableEq, Repr

/-- A non-nil Go `error` value, by dynamic type: `*apierrors.StatusError`, some other
type implementing `apierrors.APIStatus`, or any other error (such as the values of
`errors.New` and `fmt.Errorf`), of which only the message is kept. -/
inductive GoError where
  | statusError (ErrStatus : Status)
  | apiStatus (status : Status)
  | errorString (msg : String)
deriving DecidableEq, Repr

/-! ## Constants -/

/-- Source constant `AssetToPrioritize`. -/
def AssetToPrioritize : String := "kube-dns"

/-- Source constant `AssetType`. -/
def AssetType : String := "service"

namespace api

/-- The constant `api.NamespaceSystem` of the Kubernetes API package. -/
def NamespaceSystem : String := "kube-system"

end api

/-! ## Library functions used by the code -/

namespace strings

/-- Go `strings.HasSuffix`. -/
def HasSuffix (s suffix : String) : Bool :=
  suffix.data.isSuffixOf s.data

/-- Go `strings.TrimSuffix`: `s` without the trailing `suffix` when it has it, else
`s` unchanged. -/
def TrimSuffix (s suffix : String) : String :=
  if HasSuffix s suffix then
    String.mk (s.data.take (s.data.length - suffix.data.length))
  else s

end strings

namespace errors

/-- Go `errors.New`. -/
def New (text : String) : GoError := GoError.errorString text

end errors

namespace apierrors

/-- The constant `unversioned.StatusReasonUnknown`. -/
def StatusReasonUnknown : String := ""

/-- The constant `unversioned.StatusReasonNotFound`. -/
def StatusReasonNotFound : String := "NotFound"

/-- The constant `unversioned.StatusReasonAlreadyExists`. -/
def StatusReasonAlreadyExists : String := "AlreadyExists"

/-- The library helper `reasonForError`: the reason carried by an `APIStatus` error,
`StatusReasonUnknown` for every other error. -/
def reasonForError : GoError → String
  | GoError.statusError s => s.Reason
  | GoError.apiStatus s => s.Reason
  | GoError.errorString _ => StatusReasonUnknown

/-- The library predicate `apierrors.IsNotFound`. -/
def IsNotFound (err : GoError) : Bool :=
  reasonForError err == StatusReasonNotFound

/-- The library predicate `apierrors.IsAlreadyExists`. -/
def IsAlreadyExists (err : GoError) : Bool :=
  reasonForError err == StatusReasonAlreadyExists

end apierrors

/-! ## `prioritizeAssetCreation` -/

/-- The `for _, info := range origSlice` loop of `prioritizeAssetCreation`, carrying the
two variables it updates, `sortedSlice` and `seen`. Reading `info.Name` through a nil
`info` panics. -/
def prioritizeLoop (assetToPrioritize assetType : String) :
    List (Option Info) → List (Option Info) → Bool → Option (List (Option Info) × Bool)
  | [], sortedSlice, seen => some (sortedSlice, seen)
  | none :: _, _, _ => none
  | some info :: rest, sortedSlice, seen =>
    if info.Name == assetToPrioritize
        && strings.TrimSuffix info.Mapping.Resource "s" == assetType then
      prioritizeLoop assetToPrioritize assetType rest (sortedSlice.set 0 (some info)) true
    else
      prioritizeLoop assetToPrioritize assetType rest (sortedSlice ++ [some info]) seen

/-- Source function `prioritizeAssetCreation`: `sortedSlice` starts as
`make([]*resource.Info, 1)`, one nil entry; the result is the pair of the returned slice
and the returned error. -/
def prioritizeAssetCreation (origSlice : List (Option Info))
    (assetToPrioritize assetType : String) :
    Option (List (Option Info) × Option GoError) :=
  match prioritizeLoop assetToPrioritize assetType origSlice [none] false with
  | none => none
  | some (sortedSlice, true) => some (sortedSlice, none)
  | some (_, false) => some (origSlice, some (errors.New ("Asset not found " ++ assetToPrioritize)))

/-- The priority test of the loop, `info.Name == assetToPrioritize &&
strings.TrimSuffix(info.Mapping.Resource, "s") == assetType`, as a predicate on assets. -/
def matchesKey (assetToPrioritize assetType : String) (info : Info) : Bool :=
  info.Name == assetToPrioritize
    && strings.TrimSuffix info.Mapping.Resource "s" == assetType

/-! ## Error classification -/

/-- Source function `shouldRetry`. The type assertion `err.(*apierrors.StatusError)`
panics on an error of any other dynamic type, and `details.Name` panics when the
`Details` pointer is nil. -/
def shouldRetry (err : GoError) : Option Bool :=
  if apierrors.IsNotFound err then
    match err with
    | GoError.statusError s =>
      match s.Details with
      | none => none
      | some details =>
        some (!(details.Name == api.NamespaceSystem && details.Kind == "namespaces"))
    | _ => none
  else some false

/-- Source function `shouldQuit`. -/
def shouldQuit (err : GoError) : Bool :=
  if !apierrors.IsAlreadyExists err then true else false

/-! ## `createAssets` -/

namespace fmt

/-- Go `fmt.Errorf` at a format string without verbs. -/
def Errorf (text : String) : GoError := GoError.errorString text

end fmt

namespace cmdutil

/-- The text of `fmt.Sprintf("error when %s %q: %v", verb, source, msg)`. The verb `%q`
renders its operand through `strconv.Quote` of the Go library, which is not part of this
code and is the parameter `goQuote`: the operand between double quotes, with the escapes
of Go syntax for quotes, backslashes and non-printing characters. -/
def sourceMessage (goQuote : String → String) (verb source msg : String) : String :=
  "error when " ++ verb ++ " " ++ goQuote source ++ ": " ++ msg

/-- The library function `cmdutil.AddSourceToErr`: with a non-empty source, an
`APIStatus` error becomes a `*StatusError` with the same status and a longer message,
any other error becomes a `fmt.Errorf` value; with an empty source the error is
returned as it is. `goQuote` is the rendering of the verb `%q`. -/
def AddSourceToErr (goQuote : String → String) (verb source : String) (err : GoError) :
    GoError :=
  if source != "" then
    match err with
    | GoError.statusError s =>
      GoError.statusError { s with Message := sourceMessage goQuote verb source s.Message }
    | GoError.apiStatus s =>
      GoError.statusError { s with Message := sourceMessage goQuote verb source s.Message }
    | GoError.errorString msg =>
      GoError.errorString (sourceMessage goQuote verb source msg)
  else err

end cmdutil

/-- What the external steps of `createAssets` hand back: the errors of `f.Validator`,
`f.DefaultNamespace` and `r.Err()`, and the two results of `r.Infos()`. With
`ContinueOnError` the builder can report an error next to the assets it could load. -/
structure Loaded where
  validatorErr : Option GoError
  namespaceErr : Option GoError
  resultErr : Option GoError
  infos : List (Option Info)
  infosErr : Option GoError

/-- The observable state of the asset loop of `createAssets`: the state of the API
server, the assets handed to `Create` so far (oldest first), and the variable `count`.
`count` is a Go `int`; it is bounded by the length of the asset slice and cannot wrap. -/
structure Applied (σ : Type) where
  server : σ
  calls : List Info
  count : Nat
deriving DecidableEq, Repr

/-- How the asset loop is left: by one of its `return` statements, or by running out
of assets. -/
inductive LoopExit where
  | returned (err : Option GoError)
  | finished
deriving DecidableEq, Repr

/-- The `for _, a := range assets` loop of `createAssets`. The creation call
`resource.NewHelper(a.Client, a.Mapping).Create(a.Namespace, true, a.Object)` is the
parameter `create`, a transition of the server state that reports the call's error;
`a.Client` on a nil `a` panics. `a.Refresh` and the progress output after a successful
call do not touch `count` or the control flow and are left out. `goQuote` is the
rendering of the verb `%q` inside `cmdutil.AddSourceToErr`. -/
def createLoop {σ : Type} (goQuote : String → String)
    (create : σ → Info → σ × Option GoError) :
    List (Option Info) → Applied σ → Option (LoopExit × Applied σ)
  | [], t => some (LoopExit.finished, t)
  | none :: _, _ => none
  | some a :: rest, t =>
    match create t.server a with
    | (s, some err) =>
      if apierrors.IsAlreadyExists err then
        some (LoopExit.returned none, ⟨s, t.calls ++ [a], t.count⟩)
      else
        some (LoopExit.returned
            (some (cmdutil.AddSourceToErr goQuote "creating" a.Source err)),
          ⟨s, t.calls ++ [a], t.count⟩)
    | (s, none) => createLoop goQuote create rest ⟨s, t.calls ++ [a], t.count + 1⟩

/-- Source function `createAssets`, from the outcome `ld` of its external steps, the
creation call `create` and the server state `s` it starts from. The result is the
returned error together with the final loop state; `none` is a panic. The error of
`prioritizeAssetCreation` is only logged. Inside the loop `obj, err := ...` declares a
new `err`, so the `err` tested after the loop is the one of `r.Infos()`. -/
def createAssets {σ : Type} (goQuote : String → String) (ld : Loaded)
    (create : σ → Info → σ × Option GoError) (s : σ) :
    Option (Option GoError × Applied σ) :=
  match ld.validatorErr with
  | some err => some (some err, ⟨s, [], 0⟩)
  | none =>
    match ld.namespaceErr with
    | some err => some (some err, ⟨s, [], 0⟩)
    | none =>
      match ld.resultErr with
      | some err => some (some err, ⟨s, [], 0⟩)
      | none =>
        match prioritizeAssetCreation ld.infos AssetToPrioritize AssetType with
        | none => none
        | some (assets, _) =>
          match createLoop goQuote create assets ⟨s, [], 0⟩ with
          | none => none
          | some (LoopExit.returned r, t) => some (r, t)
          | some (LoopExit.finished, t) =>
            match ld.infosErr with
            | some err => some (some err, t)
            | none =>
              if t.count == 0 then some (some (fmt.Errorf "no objects passed to create"), t)
              else some (none, t)

/-- Running the creation call over a list of assets in order: the server state reached
when every one of the calls succeeds, `none` as soon as one fails. -/
def succeedAll {σ : Type} (create : σ → Info → σ × Option GoError) : List Info → σ → Option σ
  | [], s => some s
  | a :: rest, s =>
    match create s a with
    | (s1, none) => succeedAll create rest s1
    | (_, some _) => none

/-- The sequence part of `createAssets` after prioritization, on a given asset sequence:
the asset loop from a fresh `count`, then the test of the `r.Infos()` error and the test
of `count`. It names "applying a sequence" for the comparison with `createAssets`. -/
def applySequence {σ : Type} (goQuote : String → String) (ld : Loaded)
    (create : σ → Info → σ × Option GoError) (s : σ)
    (assets : List (Option Info)) : Option (Option GoError × Applied σ) :=
  match createLoop goQuote create assets ⟨s, [], 0⟩ with
  | none => none
  | some (LoopExit.returned r, t) => some (r, t)
  | some (LoopExit.finished, t) =>
    match ld.infosErr with
    | some err => some (some err, t)
    | none =>
      if t.count == 0 then some (some (fmt.Errorf "no objects passed to create"), t)
      else some (none, t)

/-! ## Polling and `CreateAssets` -/

/-- The text of `err.Error()`: the status message for a `*StatusError`, the message for
a plain error; for another `APIStatus` type the status message is taken. -/
def GoError.Error : GoError → String
  | GoError.statusError s => s.Message
  | GoError.apiStatus s => s.Message
  | GoError.errorString msg => msg

namespace wait

/-- The library variable `wait.ErrWaitTimeout`. -/
def ErrWaitTimeout : GoError := errors.New "timed out waiting for the condition"

/-- The library function `wait.WaitFor`: `fn` is invoked once for every value placed on
the poller's channel and once more when the channel is closed; an error of `fn` ends the
loop and is returned, `true` without error ends it with nil, and a closed channel ends
it with `ErrWaitTimeout`. The first argument is the number of ticks the poller still
delivers before the timeout closes the channel; `fn` acts on the state of the outside
world and `none` is a panic inside `fn`. -/
def WaitFor {σ : Type} (fn : σ → Option ((Bool × Option GoError) × σ)) :
    Nat → σ → Option (Option GoError × σ)
  | 0, s =>
    match fn s with
    | none => none
    | some ((_, some err), s1) => some (some err, s1)
    | some ((true, none), s1) => some (none, s1)
    | some ((false, none), s1) => some (some ErrWaitTimeout, s1)
  | n + 1, s =>
    match fn s with
    | none => none
    | some ((_, some err), s1) => some (some err, s1)
    | some ((true, none), s1) => some (none, s1)
    | some ((false, none), s1) => WaitFor fn n s1

/-- The library function `wait.Poll(interval, timeout, condition)`, which is `WaitFor`
over the poller of the interval and the timeout. Real time is not represented: `ticks`
is the number of interval ticks that fit before a non-zero timeout expires. -/
def Poll {σ : Type} (ticks : Nat) (condition : σ → Option ((Bool × Option GoError) × σ))
    (s : σ) : Option (Option GoError × σ) :=
  WaitFor condition ticks s

end wait

/-- The outside world of `CreateAssets` over a state `σ`: the readiness call `apiTest`,
the external steps of `createAssets` (reading the manifest directory and the schema), and
the creation call. -/
structure Cluster (σ : Type) where
  apiTest : σ → σ × Option GoError
  load : σ → Loaded
  create : σ → Info → σ × Option GoError

/-- The closure `upFn` of `CreateAssets`; the warning it logs is left out. -/
def upFn {σ : Type} (cl : Cluster σ) (s : σ) : Option ((Bool × Option GoError) × σ) :=
  match cl.apiTest s with
  | (s1, some _) => some ((false, none), s1)
  | (s1, none) => some ((true, none), s1)

/-- The expression `(shouldRetry(err) || shouldQuit(err))` of `createFn`: `shouldRetry`
is evaluated first and `shouldQuit` only when it returned false; a panic of
`shouldRetry` is a panic of the expression. -/
def completedFlag (err : GoError) : Option Bool :=
  match shouldRetry err with
  | none => none
  | some true => some true
  | some false => some (shouldQuit err)

/-- The expression with its operands exchanged, `(shouldQuit(err) || shouldRetry(err))`,
for the comparison of the two orders of evaluation: `shouldRetry` is evaluated only when
`shouldQuit` returned false. -/
def completedFlagQuitFirst (err : GoError) : Option Bool :=
  if shouldQuit err then some true else shouldRetry err

/-- The closure `createFn` of `CreateAssets`; the warning it logs is left out. -/
def createFn {σ : Type} (goQuote : String → String) (cl : Cluster σ) (s : σ) :
    Option ((Bool × Option GoError) × σ) :=
  match createAssets goQuote (cl.load s) cl.create s with
  | none => none
  | some (some err, t) =>
    match completedFlag err with
    | none => none
    | some b => some ((b, some err), t.server)
  | some (none, t) => some ((true, none), t.server)

/-- Source function `CreateAssets`. The two polls get the numbers of ticks that fit into
`timeout` and into `timeout - time.Since(start)`; the verb `%v` renders `err.Error()`;
the progress output is left out. -/
def CreateAssets {σ : Type} (goQuote : String → String) (cl : Cluster σ)
    (ticksUp ticksCreate : Nat) (s : σ) : Option (Option GoError × σ) :=
  match wait.Poll ticksUp (upFn cl) s with
  | none => none
  | some (some err, s1) =>
    some (some (fmt.Errorf ("API Server unavailable: " ++ err.Error)), s1)
  | some (none, s1) =>
    match wait.Poll ticksCreate (createFn goQuote cl) s1 with
    | none => none
    | some (some err, s2) =>
      some (some (fmt.Errorf ("Failed to create assets: " ++ err.Error)), s2)
    | some (none, s2) => some (none, s2)

/-! ## Sample values -/

/-- The DNS service asset of the `kube-system` namespace. -/
def kubeDns : Info := ⟨⟨"services"⟩, "kube-system", "kube-dns", "kube-dns-svc.yaml", "svc"⟩

/-- A DNS service asset of the same name in the `default` namespace. -/
def kubeDnsDefault : Info := ⟨⟨"services"⟩, "default", "kube-dns", "dns-default.yaml", "svc2"⟩

/-- A config map asset. -/
def corednsCm : Info := ⟨⟨"configmaps"⟩, "kube-system", "coredns-cm", "coredns-cm.yaml", "cm"⟩

/-- A deployment asset. -/
def scheduler : Info :=
  ⟨⟨"deployments"⟩, "kube-system", "kube-scheduler", "kube-scheduler.yaml", "dep"⟩

/-- Not-found of the system namespace, as a `*StatusError`. -/
def errSystemNamespaceNotFound : GoError :=
  GoError.statusError
    ⟨"namespaces \"kube-system\" not found", "NotFound", some ⟨"kube-system", "namespaces"⟩, 404⟩

/-- Not-found of another namespace. -/
def errOtherNamespaceNotFound : GoError :=
  GoError.statusError
    ⟨"namespaces \"default\" not found", "NotFound", some ⟨"default", "namespaces"⟩, 404⟩

/-- An "already exists" conflict. -/
def errAlreadyExists : GoError :=
  GoError.statusError
    ⟨"services \"kube-dns\" already exists", "AlreadyExists", some ⟨"kube-dns", "services"⟩, 409⟩

/-- A permission failure. -/
def errForbidden : GoError :=
  GoError.statusError ⟨"forbidden", "Forbidden", none, 403⟩

/-- A loader without errors over the given assets. -/
def loadedOk (xs : List Info) : Loaded := ⟨none, none, none, xs.map some, none⟩

/-- A server on which every creation succeeds; its state counts the calls. -/
def serverOk : Nat → Info → Nat × Option GoError := fun n _ => (n + 1, none)

/-- A server on which every object is already present. -/
def serverAllExist : Nat → Info → Nat × Option GoError := fun n _ => (n + 1, some errAlreadyExists)

/-- A server that accepts its first `k` calls and answers every later one with `err`. -/
def serverFailAfter (k : Nat) (err : GoError) : Nat → Info → Nat × Option GoError :=
  fun n _ => if n < k then (n + 1, none) else (n + 1, some err)

/-- The rendering of `%q` on a source made of printing ASCII characters other than the
double quote and the backslash: the source between double quotes. It stands for
`strconv.Quote` in the sample runs, whose sources are all of this kind. -/
def quotePlain (source : String) : String := "\"" ++ source ++ "\""

/-- A not-found `*StatusError` that carries no details. -/
def errNotFoundNoDetails : GoError :=
  GoError.statusError ⟨"the server could not find the requested resource", "NotFound", none, 404⟩

/-- A cluster on which every creation fails with a not-found that carries no details. -/
def clusterNoDetails : Cluster Nat where
  apiTest := fun n => (n + 1, none)
  load := fun _ => loadedOk [kubeDns, corednsCm]
  create := fun n _ => (n + 1, some errNotFoundNoDetails)

/-- A connectivity failure, an error that is no `APIStatus`. -/
def errConnectionRefused : GoError := GoError.errorString "connection refused"

/-- A loader that reports the error `e` of `r.Infos()` next to the assets it loaded. -/
def loadedWithError (xs : List Info) (e : GoError) : Loaded :=
  ⟨none, none, none, xs.map some, some e⟩

/-- A cluster whose state counts the calls made to it: the API answers from the start,
the manifests hold `[kube-dns, coredns-cm]`, and the system namespace becomes visible
only from the third call on, every earlier creation failing with its not-found. -/
def clusterNamespaceLate : Cluster Nat where
  apiTest := fun n => (n + 1, none)
  load := fun _ => loadedOk [kubeDns, corednsCm]
  create := fun n _ =>
    if n < 2 then (n + 1, some errSystemNamespaceNotFound) else (n + 1, none)

/-- A cluster on which every creation is refused with a permission failure. -/
def clusterForbidden : Cluster Nat where
  apiTest := fun n => (n + 1, none)
  load := fun _ => loadedOk [kubeDns, corednsCm]
  create := fun n _ => (n + 1, some errForbidden)

/-- A cluster whose API answers only from its third call on. -/
def clusterApiLate : Cluster Nat where
  apiTest := fun n =>
    if n < 2 then (n + 1, some errConnectionRefused) else (n + 1, none)
  load := fun _ => loadedOk [kubeDns, corednsCm]
  create := fun n _ => (n + 1, none)

/-! ## The prioritising loop in closed form -/

/-- Over non-nil assets the loop never panics: slot 0 ends up holding the last
matching asset (or what it held before, when none matches), the other assets are
appended in order, and `seen` records whether a match occurred. -/
theorem prioritizeLoop_map_some (a ty : String) (xs : List Info) :
    ∀ (h : Option Info) (t : List (Option Info)) (seen : Bool),
      prioritizeLoop a ty (xs.map some) (h :: t) seen
        = some (((xs.filter (matchesKey a ty)).getLast?.or h)
              :: (t ++ (xs.filter (fun x => !matchesKey a ty x)).map some),
            seen || xs.any (matchesKey a ty)) := by
  induction xs with
  | nil => intro h t seen; simp [prioritizeLoop]
  | cons x xs ih =>
    intro h t seen
    by_cases hx : matchesKey a ty x = true
    · have hx2 : (x.Name == a && strings.TrimSuffix x.Mapping.Resource "s" == ty) = true := hx
      simp only [List.map_cons, prioritizeLoop, hx2, if_true, List.set_cons_zero]
      rw [ih]
      simp only [List.filter_cons, hx, if_true, List.any_cons, Bool.true_or, Bool.or_true,
        Bool.not_true, Bool.false_eq_true, if_false, List.getLast?_cons]
      cases (xs.filter (matchesKey a ty)).getLast? <;> simp
    · have hx1 : matchesKey a ty x = false := by simpa using hx
      have hx2 : (x.Name == a && strings.TrimSuffix x.Mapping.Resource "s" == ty) = false := hx1
      simp only [List.map_cons, prioritizeLoop, hx2, Bool.false_eq_true, if_false,
        List.cons_append]
      rw [ih]
      simp [List.filter_cons, hx1]

/-- Closed form of `prioritizeAssetCreation` on non-nil assets with a match. -/
theorem prioritizeAssetCreation_of_any (a ty : String) (xs : List Info)
    (h : xs.any (matchesKey a ty) = true) :
    prioritizeAssetCreation (xs.map some) a ty
      = some ((xs.filter (matchesKey a ty)).getLast?
            :: (xs.filter (fun x => !matchesKey a ty x)).map some, none) := by
  unfold prioritizeAssetCreation
  rw [prioritizeLoop_map_some, h]
  simp

/-- Closed form of `prioritizeAssetCreation` on non-nil assets without a match. -/
theorem prioritizeAssetCreation_of_not_any (a ty : String) (xs : List Info)
    (h : xs.any (matchesKey a ty) = false) :
    prioritizeAssetCreation (xs.map some) a ty
      = some (xs.map some, some (errors.New ("Asset not found " ++ a))) := by
  unfold prioritizeAssetCreation
  rw [prioritizeLoop_map_some, h]
  rfl

/-- On non-nil assets `prioritizeAssetCreation` returns, without panic, a sequence of
non-nil assets. -/
theorem prioritizeAssetCreation_map_some (a ty : String) (xs : List Info) :
    ∃ (ys : List Info) (perr : Option GoError),
      prioritizeAssetCreation (xs.map some) a ty = some (ys.map some, perr) := by
  cases h : xs.any (matchesKey a ty) with
  | false => exact ⟨xs, _, prioritizeAssetCreation_of_not_any a ty xs h⟩
  | true =>
    rw [prioritizeAssetCreation_of_any a ty xs h]
    obtain ⟨x, hx, hm⟩ := List.any_eq_true.mp h
    have hne : xs.filter (matchesKey a ty) ≠ [] :=
      List.ne_nil_of_mem (List.mem_filter.mpr ⟨hx, hm⟩)
    refine ⟨(xs.filter (matchesKey a ty)).getLast hne
      :: xs.filter (fun x => !matchesKey a ty x), none, ?_⟩
    rw [List.getLast?_eq_getLast _ hne]
    rfl

/-- A list with exactly one element satisfying `p` splits around that element. -/
theorem split_of_countP_eq_one {α : Type} (p : α → Bool) :
    ∀ xs : List α, xs.countP p = 1 →
      ∃ pre x post, xs = pre ++ x :: post ∧ p x = true
        ∧ (∀ y ∈ pre, p y = false) ∧ (∀ y ∈ post, p y = false) := by
  intro xs
  induction xs with
  | nil => intro h; simp at h
  | cons z zs ih =>
    intro h
    by_cases hz : p z = true
    · refine ⟨[], z, zs, rfl, hz, by simp, ?_⟩
      have h0 : zs.countP p = 0 := by
        rw [List.countP_cons_of_pos _ _ hz] at h
        omega
      intro y hy
      have := (List.countP_eq_zero.mp h0) y hy
      simpa using this
    · rw [List.countP_cons_of_neg _ _ hz] at h
      obtain ⟨pre, x, post, hxs, hx, hpre, hpost⟩ := ih h
      refine ⟨z :: pre, x, post, by rw [hxs]; rfl, hx, ?_, hpost⟩
      intro y hy
      rcases List.mem_cons.mp hy with rfl | hy
      · simpa using hz
      · exact hpre y hy

/-! ## Properties of `prioritizeAssetCreation` -/

/-- C1: when exactly one asset of the input matches the priority key, the input splits
as `pre ++ x :: post` around that asset `x`, and `prioritizeAssetCreation` returns no
error and the sequence `x :: pre ++ post`: the matching asset first, then the other
assets in their input order, a permutation of the input of the same length. -/
theorem prioritizeAssetCreation_exactly_one (a ty : String) (xs : List Info)
    (h : xs.countP (matchesKey a ty) = 1) :
    ∃ pre x post, xs = pre ++ x :: post ∧ matchesKey a ty x = true
      ∧ (∀ y ∈ pre ++ post, matchesKey a ty y = false)
      ∧ prioritizeAssetCreation (xs.map some) a ty
          = some ((x :: (pre ++ post)).map some, none)
      ∧ (x :: (pre ++ post)).Perm xs
      ∧ (x :: (pre ++ post)).length = xs.length := by
  obtain ⟨pre, x, post, hxs, hx, hpre, hpost⟩ := split_of_countP_eq_one _ xs h
  have hall : ∀ y ∈ pre ++ post, matchesKey a ty y = false := by
    intro y hy
    rcases List.mem_append.mp hy with hy | hy
    · exact hpre y hy
    · exact hpost y hy
  have hperm : (x :: (pre ++ post)).Perm xs := by
    rw [hxs]
    exact (List.perm_middle).symm
  refine ⟨pre, x, post, hxs, hx, hall, ?_, hperm, hperm.length_eq⟩
  have hany : xs.any (matchesKey a ty) = true := by
    rw [hxs]; simp [hx]
  have hf1 : ∀ l : List Info, (∀ y ∈ l, matchesKey a ty y = false) →
      l.filter (matchesKey a ty) = [] := by
    intro l hl
    rw [List.filter_eq_nil_iff]
    intro y hy
    simp [hl y hy]
  have hf2 : ∀ l : List Info, (∀ y ∈ l, matchesKey a ty y = false) →
      l.filter (fun z => !matchesKey a ty z) = l := by
    intro l hl
    rw [List.filter_eq_self]
    intro y hy
    simp [hl y hy]
  rw [prioritizeAssetCreation_of_any a ty xs hany, hxs]
  simp [List.filter_append, List.filter_cons, hx, hf1 pre hpre, hf1 post hpost,
    hf2 pre hpre, hf2 post hpost]

/-- Witness for C1 on `[coredns-cm, kube-dns, kube-scheduler]`. -/
theorem prioritizeAssetCreation_exactly_one_witness :
    [corednsCm, kubeDns, scheduler].countP (matchesKey AssetToPrioritize AssetType) = 1
      ∧ ∃ pre x post, [corednsCm, kubeDns, scheduler] = pre ++ x :: post
        ∧ matchesKey AssetToPrioritize AssetType x = true
        ∧ (∀ y ∈ pre ++ post, matchesKey AssetToPrioritize AssetType y = false)
        ∧ prioritizeAssetCreation ([corednsCm, kubeDns, scheduler].map some)
            AssetToPrioritize AssetType = some ((x :: (pre ++ post)).map some, none)
        ∧ (x :: (pre ++ post)).Perm [corednsCm, kubeDns, scheduler]
        ∧ (x :: (pre ++ post)).length = [corednsCm, kubeDns, scheduler].length :=
  ⟨by decide, prioritizeAssetCreation_exactly_one AssetToPrioritize AssetType
    [corednsCm, kubeDns, scheduler] (by decide)⟩

/-- C2 (the code at an input with two matching assets): on
`[kube-dns (default), coredns-cm, kube-dns (kube-system)]` both DNS services match the
key, yet the output is `[kube-dns (kube-system), coredns-cm]`: slot 0 holds the last
match, not the first, and the first match is dropped, so the output has two elements
for three inputs. -/
theorem prioritizeAssetCreation_two_matches :
    matchesKey AssetToPrioritize AssetType kubeDnsDefault = true
      ∧ matchesKey AssetToPrioritize AssetType kubeDns = true
      ∧ prioritizeAssetCreation [some kubeDnsDefault, some corednsCm, some kubeDns]
          AssetToPrioritize AssetType = some ([some kubeDns, some corednsCm], none)
      ∧ some kubeDnsDefault ∉ [some kubeDns, some corednsCm]
      ∧ [some kubeDns, some corednsCm].length
          < [some kubeDnsDefault, some corednsCm, some kubeDns].length := by
  decide

/-- C3: when no asset of the input matches the priority key (the empty input
included), `prioritizeAssetCreation` returns the input sequence itself together with the
non-nil error `"Asset not found " + assetToPrioritize`. -/
theorem prioritizeAssetCreation_no_match (a ty : String) (xs : List Info)
    (h : ∀ x ∈ xs, matchesKey a ty x = false) :
    prioritizeAssetCreation (xs.map some) a ty
      = some (xs.map some, some (errors.New ("Asset not found " ++ a))) := by
  apply prioritizeAssetCreation_of_not_any
  rw [List.any_eq_false]
  intro x hx
  simp [h x hx]

/-- Witness for C3 on `[coredns-cm, kube-scheduler]`. -/
theorem prioritizeAssetCreation_no_match_witness :
    (∀ x ∈ [corednsCm, scheduler], matchesKey AssetToPrioritize AssetType x = false)
      ∧ prioritizeAssetCreation ([corednsCm, scheduler].map some) AssetToPrioritize AssetType
          = some ([corednsCm, scheduler].map some,
              some (errors.New ("Asset not found " ++ AssetToPrioritize))) :=
  ⟨by decide, prioritizeAssetCreation_no_match AssetToPrioritize AssetType
    [corednsCm, scheduler] (by decide)⟩

/-! ## Properties of the error classification -/

/-- C4 (the code at a not-found of the system namespace and at a not-found of another
namespace): `shouldRetry` returns false for the not-found of `kube-system` and true for
the not-found of the namespace `default`. -/
theorem shouldRetry_system_namespace_eval :
    apierrors.IsNotFound errSystemNamespaceNotFound = true
      ∧ shouldRetry errSystemNamespaceNotFound = some false
      ∧ apierrors.IsNotFound errOtherNamespaceNotFound = true
      ∧ shouldRetry errOtherNamespaceNotFound = some true := by
  decide

/-- C5: `shouldRetry` returns true only for a not-found error whose details name a
target other than the system namespace (not both `Kind = "namespaces"` and
`Name = api.NamespaceSystem`); it returns false for a not-found of the system namespace
itself and false for every error that is not a not-found. -/
theorem shouldRetry_true_only_other_target (err : GoError) :
    (shouldRetry err = some true →
        apierrors.IsNotFound err = true ∧
        ∃ s d, err = GoError.statusError s ∧ s.Details = some d
          ∧ ¬ (d.Name = api.NamespaceSystem ∧ d.Kind = "namespaces"))
      ∧ (∀ s d, err = GoError.statusError s → apierrors.IsNotFound err = true →
          s.Details = some d → d.Name = api.NamespaceSystem → d.Kind = "namespaces" →
          shouldRetry err = some false)
      ∧ (apierrors.IsNotFound err = false → shouldRetry err = some false) := by
  refine ⟨?_, ?_, ?_⟩
  · intro h
    unfold shouldRetry at h
    by_cases hnf : apierrors.IsNotFound err = true
    · refine ⟨hnf, ?_⟩
      rw [if_pos hnf] at h
      cases err with
      | statusError s =>
        cases hd : s.Details with
        | none => simp [hd] at h
        | some d =>
          refine ⟨s, d, rfl, hd, ?_⟩
          simp only [hd, Option.some.injEq, Bool.not_eq_true', Bool.and_eq_false_imp,
            beq_iff_eq, beq_eq_false_iff_ne] at h
          intro hc
          exact h hc.1 hc.2
      | apiStatus s => simp at h
      | errorString m => simp at h
    · rw [if_neg hnf] at h
      simp at h
  · intro s d he hnf hd hn hk
    subst he
    unfold shouldRetry
    rw [if_pos hnf]
    simp [hd, hn, hk]
  · intro hnf
    unfold shouldRetry
    simp [hnf]

/-- Witness for C5: the three parts at a not-found of the namespace `default`, a
not-found of the system namespace, and a permission failure. -/
theorem shouldRetry_true_only_other_target_witness :
    (shouldRetry errOtherNamespaceNotFound = some true
        ∧ apierrors.IsNotFound errOtherNamespaceNotFound = true
        ∧ ∃ s d, errOtherNamespaceNotFound = GoError.statusError s ∧ s.Details = some d
          ∧ ¬ (d.Name = api.NamespaceSystem ∧ d.Kind = "namespaces"))
      ∧ shouldRetry errSystemNamespaceNotFound = some false
      ∧ (apierrors.IsNotFound errForbidden = false ∧ shouldRetry errForbidden = some false) :=
  ⟨⟨by decide, (shouldRetry_true_only_other_target errOtherNamespaceNotFound).1 (by decide)⟩,
    (shouldRetry_true_only_other_target errSystemNamespaceNotFound).2.1 _ _ rfl (by decide)
      rfl rfl rfl,
    by decide, (shouldRetry_true_only_other_target errForbidden).2.2 (by decide)⟩

/-- C6: `shouldQuit` returns false exactly for an "already exists" error, and true
exactly for every other error. -/
theorem shouldQuit_false_iff_alreadyExists (err : GoError) :
    (shouldQuit err = false ↔ apierrors.IsAlreadyExists err = true)
      ∧ (shouldQuit err = true ↔ apierrors.IsAlreadyExists err = false)
      ∧ (shouldQuit err = false ↔
          ∃ st, (err = GoError.statusError st ∨ err = GoError.apiStatus st)
            ∧ st.Reason = apierrors.StatusReasonAlreadyExists) := by
  refine ⟨?_, ?_, ?_⟩
  · unfold shouldQuit
    cases apierrors.IsAlreadyExists err <;> simp
  · unfold shouldQuit
    cases apierrors.IsAlreadyExists err <;> simp
  · cases err with
    | statusError st =>
      simp [shouldQuit, apierrors.IsAlreadyExists, apierrors.reasonForError]
    | apiStatus st =>
      simp [shouldQuit, apierrors.IsAlreadyExists, apierrors.reasonForError]
    | errorString m =>
      simp [shouldQuit, apierrors.IsAlreadyExists, apierrors.reasonForError,
        apierrors.StatusReasonUnknown, apierrors.StatusReasonAlreadyExists]

/-! ## The asset loop of `createAssets` -/

/-- While the creation calls succeed the loop just advances: the calls are recorded
and `count` grows by one per asset. -/
theorem createLoop_succeedAll (goQuote : String → String) {σ : Type}
    (create : σ → Info → σ × Option GoError) :
    ∀ (pre : List Info) (rest : List (Option Info)) (t : Applied σ) (s1 : σ),
      succeedAll create pre t.server = some s1 →
      createLoop goQuote create (pre.map some ++ rest) t
        = createLoop goQuote create rest ⟨s1, t.calls ++ pre, t.count + pre.length⟩ := by
  intro pre
  induction pre with
  | nil =>
    intro rest t s1 h
    simp only [succeedAll, Option.some.injEq] at h
    subst h
    simp
  | cons x pre ih =>
    intro rest t s1 h
    rcases hc : create t.server x with ⟨s2, _ | e⟩
    · simp only [succeedAll, hc] at h
      have hstep := ih rest ⟨s2, t.calls ++ [x], t.count + 1⟩ s1 h
      simp only [List.map_cons, List.cons_append, createLoop, hc]
      refine hstep.trans ?_
      simp [Nat.add_assoc, Nat.add_comm 1]
    · simp [succeedAll, hc] at h

/-- When the loop runs out of assets, every asset was created: `count` grew by the
number of assets. -/
theorem createLoop_finished_count (goQuote : String → String) {σ : Type}
    (create : σ → Info → σ × Option GoError) :
    ∀ (l : List (Option Info)) (t t1 : Applied σ),
      createLoop goQuote create l t = some (LoopExit.finished, t1) →
      t1.count = t.count + l.length := by
  intro l
  induction l with
  | nil =>
    intro t t1 h
    simp only [createLoop, Option.some.injEq, Prod.mk.injEq, true_and] at h
    subst h
    simp
  | cons x l ih =>
    intro t t1 h
    cases x with
    | none => simp [createLoop] at h
    | some a =>
      rcases hc : create t.server a with ⟨s2, _ | e⟩
      · simp only [createLoop, hc] at h
        have := ih _ _ h
        simp only [List.length_cons] at this ⊢
        omega
      · simp only [createLoop, hc] at h
        split at h <;> simp at h

/-- The prioritising loop never shrinks `sortedSlice`. -/
theorem prioritizeLoop_length (a ty : String) :
    ∀ (l acc r : List (Option Info)) (seen b : Bool),
      prioritizeLoop a ty l acc seen = some (r, b) → acc.length ≤ r.length := by
  intro l
  induction l with
  | nil =>
    intro acc r seen b h
    simp only [prioritizeLoop, Option.some.injEq, Prod.mk.injEq] at h
    rw [h.1]
  | cons x l ih =>
    intro acc r seen b h
    cases x with
    | none => simp [prioritizeLoop] at h
    | some info =>
      simp only [prioritizeLoop] at h
      split at h
      · have := ih _ _ _ _ h
        simpa using this
      · have := ih _ _ _ _ h
        simp only [List.length_append, List.length_singleton] at this
        omega

/-- The sequence returned by `prioritizeAssetCreation` for a non-empty input is
non-empty. -/
theorem prioritizeAssetCreation_ne_nil (a ty : String) (l r : List (Option Info))
    (e : Option GoError) (h : prioritizeAssetCreation l a ty = some (r, e)) (hl : l ≠ []) :
    r ≠ [] := by
  unfold prioritizeAssetCreation at h
  rcases hloop : prioritizeLoop a ty l [none] false with _ | ⟨r1, b⟩
  · simp [hloop] at h
  · cases b with
    | true =>
      simp only [hloop, Option.some.injEq, Prod.mk.injEq] at h
      have hlen := prioritizeLoop_length a ty l [none] r1 false true hloop
      intro hr
      rw [h.1, hr] at hlen
      simp at hlen
    | false =>
      simp only [hloop, Option.some.injEq, Prod.mk.injEq] at h
      rw [← h.1]
      exact hl

/-- The reason of an error is kept by `AddSourceToErr`. -/
theorem reasonForError_AddSourceToErr (goQuote : String → String) (verb source : String)
    (err : GoError) :
    apierrors.reasonForError (cmdutil.AddSourceToErr goQuote verb source err)
      = apierrors.reasonForError err := by
  unfold cmdutil.AddSourceToErr
  split
  · cases err <;> rfl
  · rfl

/-- The asset loop, when the first `i` creations succeed and the next one fails. -/
theorem createLoop_first_failure (goQuote : String → String) {σ : Type}
    (create : σ → Info → σ × Option GoError)
    (s s1 : σ) (ys : List Info) (i : Nat) (hi : i < ys.length) (err : GoError)
    (hpre : succeedAll create (ys.take i) s = some s1)
    (herr : (create s1 ys[i]).2 = some err) :
    createLoop goQuote create (ys.map some) ⟨s, [], 0⟩
      = some (LoopExit.returned
            (if apierrors.IsAlreadyExists err then none
              else some (cmdutil.AddSourceToErr goQuote "creating" ys[i].Source err)),
          ⟨(create s1 ys[i]).1, ys.take (i + 1), i⟩) := by
  have hsplit : ys = ys.take i ++ ys[i] :: ys.drop (i + 1) := by
    rw [List.getElem_cons_drop, List.take_append_drop]
  have hlen : (ys.take i).length = i := by
    rw [List.length_take]; omega
  have htake : ys.take (i + 1) = ys.take i ++ [ys[i]] := by
    rw [List.take_succ, List.getElem?_eq_getElem hi]; rfl
  have hmap : ys.map some
      = (ys.take i).map some ++ (some ys[i] :: (ys.drop (i + 1)).map some) := by
    conv_lhs => rw [hsplit]
    rw [List.map_append, List.map_cons]
  rw [hmap, createLoop_succeedAll goQuote create (ys.take i) _ ⟨s, [], 0⟩ s1 hpre]
  rcases hc : create s1 ys[i] with ⟨s2, oe⟩
  rw [hc] at herr
  simp only at herr
  subst herr
  simp only [createLoop, hc, List.nil_append, Nat.zero_add, hlen, htake]
  split <;> rfl

/-- `createAssets` once its external steps have succeeded: the asset loop over the
prioritized sequence, then the tests after the loop. -/
theorem createAssets_of_loaded (goQuote : String → String) {σ : Type}
    (ld : Loaded)
    (create : σ → Info → σ × Option GoError) (s : σ) (assets : List (Option Info))
    (perr : Option GoError)
    (hv : ld.validatorErr = none) (hn : ld.namespaceErr = none) (hr : ld.resultErr = none)
    (hprio : prioritizeAssetCreation ld.infos AssetToPrioritize AssetType
      = some (assets, perr)) :
    createAssets goQuote ld create s =
      match createLoop goQuote create assets ⟨s, [], 0⟩ with
      | none => none
      | some (LoopExit.returned r, t) => some (r, t)
      | some (LoopExit.finished, t) =>
        match ld.infosErr with
        | some err => some (some err, t)
        | none =>
          if t.count == 0 then some (some (fmt.Errorf "no objects passed to create"), t)
          else some (none, t) := by
  unfold createAssets
  simp only [hv, hn, hr, hprio]

/-- When the loader reports no error, the prioritized sequence `ys` is not empty and
every creation succeeds, `createAssets` returns nil after one call per prioritized
asset, in order, with `count` their number. -/
theorem createAssets_all_succeed (goQuote : String → String) {σ : Type}
    (ld : Loaded)
    (create : σ → Info → σ × Option GoError) (s s1 : σ) (ys : List Info)
    (perr : Option GoError)
    (hv : ld.validatorErr = none) (hn : ld.namespaceErr = none) (hr : ld.resultErr = none)
    (hie : ld.infosErr = none)
    (hprio : prioritizeAssetCreation ld.infos AssetToPrioritize AssetType
      = some (ys.map some, perr))
    (hys : ys ≠ []) (hall : succeedAll create ys s = some s1) :
    createAssets goQuote ld create s = some (none, ⟨s1, ys, ys.length⟩) := by
  rw [createAssets_of_loaded goQuote ld create s _ perr hv hn hr hprio]
  have h := createLoop_succeedAll goQuote create ys [] ⟨s, [], 0⟩ s1 hall
  simp only [List.append_nil, List.nil_append, Nat.zero_add] at h
  rw [h]
  have hpos : 0 < ys.length := List.length_pos.mpr hys
  have hne : ¬ ys.length = 0 := by omega
  simp [createLoop, hie, hne]

/-! ## Properties of `createAssets` -/

/-- C7: with the external steps succeeded and `ys` the prioritized sequence, when the
creations of the first `i` assets of `ys` succeed and the creation of `ys[i]` fails with
"already exists", `createAssets` returns nil, the creation calls issued are exactly
`ys.take (i + 1)` and `count` is `i`. In particular, on a non-empty input and a server
on which every creation reports "already exists", it returns nil after the single call
for the first prioritized asset, with `count` 0. -/
theorem createAssets_alreadyExists_shortCircuit (goQuote : String → String) {σ : Type}
    (ld : Loaded)
    (create : σ → Info → σ × Option GoError) (s : σ) (ys : List Info)
    (perr : Option GoError)
    (hv : ld.validatorErr = none) (hn : ld.namespaceErr = none) (hr : ld.resultErr = none)
    (hprio : prioritizeAssetCreation ld.infos AssetToPrioritize AssetType
      = some (ys.map some, perr)) :
    (∀ (i : Nat) (hi : i < ys.length) (s1 : σ) (err : GoError),
        succeedAll create (ys.take i) s = some s1 →
        (create s1 ys[i]).2 = some err →
        apierrors.IsAlreadyExists err = true →
        createAssets goQuote ld create s
          = some (none, ⟨(create s1 ys[i]).1, ys.take (i + 1), i⟩))
      ∧ (ld.infos ≠ [] →
          (∀ st x, ∃ e, (create st x).2 = some e ∧ apierrors.IsAlreadyExists e = true) →
          ∃ y rest, ys = y :: rest
            ∧ createAssets goQuote ld create s = some (none, ⟨(create s y).1, [y], 0⟩)) := by
  have hA : ∀ (i : Nat) (hi : i < ys.length) (s1 : σ) (err : GoError),
      succeedAll create (ys.take i) s = some s1 →
      (create s1 ys[i]).2 = some err →
      apierrors.IsAlreadyExists err = true →
      createAssets goQuote ld create s
        = some (none, ⟨(create s1 ys[i]).1, ys.take (i + 1), i⟩) := by
    intro i hi s1 err hpre herr hae
    rw [createAssets_of_loaded goQuote ld create s _ perr hv hn hr hprio,
      createLoop_first_failure goQuote create s s1 ys i hi err hpre herr]
    simp [hae]
  refine ⟨hA, ?_⟩
  intro hne hall
  have hys : ys.map some ≠ [] :=
    prioritizeAssetCreation_ne_nil _ _ _ _ _ hprio hne
  cases ys with
  | nil => simp at hys
  | cons y rest =>
    obtain ⟨e, he, hae⟩ := hall s y
    refine ⟨y, rest, rfl, ?_⟩
    have := hA 0 (by simp) s e (by simp [succeedAll]) (by simpa using he) hae
    simpa using this

/-- Witness for C7: on `[coredns-cm, kube-dns, kube-scheduler]` with a server that accepts
one creation and then reports "already exists", the run stops after the second
prioritized asset with `count` 1; with a server reporting "already exists" throughout,
it stops after the first with `count` 0. -/
theorem createAssets_alreadyExists_shortCircuit_witness :
    createAssets quotePlain (loadedOk [corednsCm, kubeDns, scheduler])
        (serverFailAfter 1 errAlreadyExists) 0
        = some (none, ⟨2, [kubeDns, corednsCm], 1⟩)
      ∧ ∃ y rest, [kubeDns, corednsCm, scheduler] = y :: rest
          ∧ createAssets quotePlain (loadedOk [corednsCm, kubeDns, scheduler]) serverAllExist 0
            = some (none, ⟨(serverAllExist 0 y).1, [y], 0⟩) :=
  ⟨(createAssets_alreadyExists_shortCircuit quotePlain (loadedOk [corednsCm, kubeDns, scheduler])
      (serverFailAfter 1 errAlreadyExists) 0 [kubeDns, corednsCm, scheduler] none
      rfl rfl rfl (by decide)).1 1 (by decide) 1 errAlreadyExists
      (by decide) (by decide) (by decide),
    (createAssets_alreadyExists_shortCircuit quotePlain (loadedOk [corednsCm, kubeDns, scheduler])
      serverAllExist 0 [kubeDns, corednsCm, scheduler] none
      rfl rfl rfl (by decide)).2 (by decide)
      (fun _ _ => ⟨errAlreadyExists, rfl, by decide⟩)⟩

/-- The message built by `AddSourceToErr "creating"`, spelled out. -/
theorem sourceMessage_creating (goQuote : String → String) (source msg : String) :
    cmdutil.sourceMessage goQuote "creating" source msg
      = "error when creating " ++ goQuote source ++ ": " ++ msg := by
  have h : "error when " ++ "creating" ++ " " = "error when creating " := by decide
  unfold cmdutil.sourceMessage
  rw [h]

/-- C8: with the external steps succeeded and `ys` the prioritized sequence, when the
creations of the first `i` assets of `ys` succeed and the creation of `ys[i]` fails with
an error that is not "already exists", `createAssets` returns a non-nil error `r` and the
creation calls issued are exactly `ys.take (i + 1)`. When the source of `ys[i]` is not
empty, `r` is the failure annotated with it: an `APIStatus` failure comes back as a
`*StatusError` with the same reason, details and code and the message
`error when creating <quoted source>: <message>`, any other failure as a plain error
with that message; with an empty source `r` is the failure itself. In both cases the
reason, and so the not-found / already-exists classification, is that of the failure. -/
theorem createAssets_failure_annotated (goQuote : String → String) {σ : Type}
    (ld : Loaded)
    (create : σ → Info → σ × Option GoError) (s s1 : σ) (ys : List Info)
    (perr : Option GoError) (i : Nat) (hi : i < ys.length) (err : GoError)
    (hv : ld.validatorErr = none) (hn : ld.namespaceErr = none) (hr : ld.resultErr = none)
    (hprio : prioritizeAssetCreation ld.infos AssetToPrioritize AssetType
      = some (ys.map some, perr))
    (hpre : succeedAll create (ys.take i) s = some s1)
    (herr : (create s1 ys[i]).2 = some err)
    (hne : apierrors.IsAlreadyExists err = false) :
    ∃ r : GoError,
      createAssets goQuote ld create s
          = some (some r, ⟨(create s1 ys[i]).1, ys.take (i + 1), i⟩)
        ∧ (ys[i].Source ≠ "" →
            r.Error = "error when creating " ++ goQuote ys[i].Source ++ ": " ++ err.Error)
        ∧ (ys[i].Source ≠ "" → ∀ st, (err = GoError.statusError st ∨ err = GoError.apiStatus st) →
            r = GoError.statusError
              ⟨"error when creating " ++ goQuote ys[i].Source ++ ": " ++ st.Message,
                st.Reason, st.Details, st.Code⟩)
        ∧ (ys[i].Source ≠ "" → ∀ msg, err = GoError.errorString msg →
            r = GoError.errorString
              ("error when creating " ++ goQuote ys[i].Source ++ ": " ++ msg))
        ∧ (ys[i].Source = "" → r = err)
        ∧ apierrors.reasonForError r = apierrors.reasonForError err
        ∧ apierrors.IsNotFound r = apierrors.IsNotFound err
        ∧ apierrors.IsAlreadyExists r = false := by
  refine ⟨cmdutil.AddSourceToErr goQuote "creating" ys[i].Source err, ?_, ?_, ?_, ?_, ?_,
    reasonForError_AddSourceToErr goQuote _ _ _, ?_, ?_⟩
  · rw [createAssets_of_loaded goQuote ld create s _ perr hv hn hr hprio,
      createLoop_first_failure goQuote create s s1 ys i hi err hpre herr]
    simp [hne]
  · intro hsrc
    have hb : (ys[i].Source != "") = true := by simpa using hsrc
    unfold cmdutil.AddSourceToErr
    rw [if_pos hb]
    cases err <;> simp only [GoError.Error, sourceMessage_creating]
  · intro hsrc st hst
    have hb : (ys[i].Source != "") = true := by simpa using hsrc
    unfold cmdutil.AddSourceToErr
    rw [if_pos hb]
    rcases hst with rfl | rfl <;> simp only [sourceMessage_creating]
  · intro hsrc msg hmsg
    have hb : (ys[i].Source != "") = true := by simpa using hsrc
    subst hmsg
    unfold cmdutil.AddSourceToErr
    rw [if_pos hb]
    simp only [sourceMessage_creating]
  · intro hsrc
    unfold cmdutil.AddSourceToErr
    simp [hsrc]
  · unfold apierrors.IsNotFound
    rw [reasonForError_AddSourceToErr]
  · rw [← hne]
    unfold apierrors.IsAlreadyExists
    rw [reasonForError_AddSourceToErr]

/-- Witness for C8: on `[coredns-cm, kube-dns, kube-scheduler]` with a server that accepts
one creation and then reports the system namespace missing, the run stops at the second
prioritized asset, `coredns-cm`, and returns that not-found with the message
`error when creating "coredns-cm.yaml": namespaces "kube-system" not found`. -/
theorem createAssets_failure_annotated_witness :
    createAssets quotePlain (loadedOk [corednsCm, kubeDns, scheduler])
        (serverFailAfter 1 errSystemNamespaceNotFound) 0
        = some (some (GoError.statusError
            ⟨"error when creating \"coredns-cm.yaml\": namespaces \"kube-system\" not found",
              "NotFound", some ⟨"kube-system", "namespaces"⟩, 404⟩),
            ⟨2, [kubeDns, corednsCm], 1⟩)
      ∧ ∃ r : GoError,
        createAssets quotePlain (loadedOk [corednsCm, kubeDns, scheduler])
            (serverFailAfter 1 errSystemNamespaceNotFound) 0
            = some (some r, ⟨2, [kubeDns, corednsCm], 1⟩)
          ∧ ("coredns-cm.yaml" ≠ "" →
              r.Error = "error when creating " ++ quotePlain "coredns-cm.yaml" ++ ": "
                ++ errSystemNamespaceNotFound.Error)
          ∧ ("coredns-cm.yaml" ≠ "" →
              ∀ st, (errSystemNamespaceNotFound = GoError.statusError st
                  ∨ errSystemNamespaceNotFound = GoError.apiStatus st) →
              r = GoError.statusError
                ⟨"error when creating " ++ quotePlain "coredns-cm.yaml" ++ ": " ++ st.Message,
                  st.Reason, st.Details, st.Code⟩)
          ∧ ("coredns-cm.yaml" ≠ "" → ∀ msg, errSystemNamespaceNotFound = GoError.errorString msg →
              r = GoError.errorString
                ("error when creating " ++ quotePlain "coredns-cm.yaml" ++ ": " ++ msg))
          ∧ ("coredns-cm.yaml" = "" → r = errSystemNamespaceNotFound)
          ∧ apierrors.reasonForError r = apierrors.reasonForError errSystemNamespaceNotFound
          ∧ apierrors.IsNotFound r = apierrors.IsNotFound errSystemNamespaceNotFound
          ∧ apierrors.IsAlreadyExists r = false :=
  ⟨by decide,
    createAssets_failure_annotated quotePlain (loadedOk [corednsCm, kubeDns, scheduler])
      (serverFailAfter 1 errSystemNamespaceNotFound) 0 1 [kubeDns, corednsCm, scheduler] none
      1 (by decide) errSystemNamespaceNotFound rfl rfl rfl (by decide) (by decide) (by decide)
      (by decide)⟩

/-- C9 (the code at an input with two matching assets): the loader yields, without
error, the two DNS services `[kube-dns (default), kube-dns (kube-system)]` and every
creation succeeds; `createAssets` returns nil with `count` 1 for 2 loaded assets, the
only creation call being the one for `kube-dns (kube-system)`. On the scenario
`[kube-dns, coredns-cm]` it returns nil with `count` 2, the DNS service created first. -/
theorem createAssets_two_matches_count :
    createAssets quotePlain (loadedOk [kubeDnsDefault, kubeDns]) serverOk 0
        = some (none, ⟨1, [kubeDns], 1⟩)
      ∧ (loadedOk [kubeDnsDefault, kubeDns]).infos.length = 2
      ∧ createAssets quotePlain (loadedOk [kubeDns, corednsCm]) serverOk 0
        = some (none, ⟨2, [kubeDns, corednsCm], 2⟩) := by
  decide

/-- C10 (as stated, refuted): the loader yields no asset and `r.Infos()` reports an
error; the asset loop ends at once, nothing short-circuited and nothing created, and
`createAssets` returns the loader's error, not "no objects passed to create". -/
theorem createAssets_empty_with_loader_error :
    createLoop quotePlain serverOk [] ⟨0, [], 0⟩ = some (LoopExit.finished, ⟨0, [], 0⟩)
      ∧ createAssets quotePlain ⟨none, none, none, [], some (GoError.errorString "unable to decode")⟩
          serverOk 0
        = some (some (GoError.errorString "unable to decode"), ⟨0, [], 0⟩)
      ∧ GoError.errorString "unable to decode" ≠ fmt.Errorf "no objects passed to create" := by
  decide

/-- C10 (amended): with the external steps succeeded and `r.Infos()` reporting no error,
when the asset loop over the prioritized sequence runs to its end with `count` 0,
`createAssets` returns the error "no objects passed to create"; this is the case of an
empty loaded sequence, with no creation call issued. -/
theorem createAssets_nothing_created (goQuote : String → String) {σ : Type}
    (ld : Loaded)
    (create : σ → Info → σ × Option GoError) (s : σ) (assets : List (Option Info))
    (perr : Option GoError) (t : Applied σ)
    (hv : ld.validatorErr = none) (hn : ld.namespaceErr = none) (hr : ld.resultErr = none)
    (hie : ld.infosErr = none)
    (hprio : prioritizeAssetCreation ld.infos AssetToPrioritize AssetType
      = some (assets, perr))
    (hloop : createLoop goQuote create assets ⟨s, [], 0⟩ = some (LoopExit.finished, t))
    (hcount : t.count = 0) :
    createAssets goQuote ld create s = some (some (fmt.Errorf "no objects passed to create"), t)
      ∧ ld.infos = [] ∧ t.calls = [] ∧ t.server = s := by
  have hlen := createLoop_finished_count goQuote create assets _ t hloop
  have hnil : assets = [] := by
    simp only [Nat.zero_add] at hlen
    rw [hcount] at hlen
    exact List.length_eq_zero.mp hlen.symm
  have hinfos : ld.infos = [] := by
    by_contra hne
    exact prioritizeAssetCreation_ne_nil _ _ _ _ _ hprio hne hnil
  refine ⟨?_, hinfos, ?_, ?_⟩
  · rw [createAssets_of_loaded goQuote ld create s _ perr hv hn hr hprio, hloop]
    simp [hie, hcount]
  · subst hnil
    simp only [createLoop, Option.some.injEq, Prod.mk.injEq, true_and] at hloop
    rw [← hloop]
  · subst hnil
    simp only [createLoop, Option.some.injEq, Prod.mk.injEq, true_and] at hloop
    rw [← hloop]

/-- Witness for C10 (amended): an empty manifest directory. -/
theorem createAssets_nothing_created_witness :
    createAssets quotePlain (loadedOk []) serverOk 0
        = some (some (fmt.Errorf "no objects passed to create"), ⟨0, [], 0⟩)
      ∧ (loadedOk []).infos = [] ∧ (⟨0, [], 0⟩ : Applied Nat).calls = []
      ∧ (⟨0, [], 0⟩ : Applied Nat).server = 0 :=
  createAssets_nothing_created quotePlain (loadedOk []) serverOk 0 []
    (some (errors.New ("Asset not found " ++ AssetToPrioritize))) ⟨0, [], 0⟩
    rfl rfl rfl rfl (by decide) (by decide) rfl

/-- Over non-nil assets the asset loop does not panic: the calls it issues are an
initial segment of the sequence, and it is left by running out of assets, by the nil of
an "already exists", or with the annotated error of one of its creation calls. -/
theorem createLoop_map_some (goQuote : String → String) {σ : Type}
    (create : σ → Info → σ × Option GoError) :
    ∀ (xs : List Info) (t0 : Applied σ),
      ∃ exit t k, createLoop goQuote create (xs.map some) t0 = some (exit, t)
        ∧ t.calls = t0.calls ++ xs.take k
        ∧ (exit = LoopExit.finished ∨ exit = LoopExit.returned none
            ∨ ∃ a ∈ xs, ∃ st err, (create st a).2 = some err
                ∧ exit = LoopExit.returned
                    (some (cmdutil.AddSourceToErr goQuote "creating" a.Source err))) := by
  intro xs
  induction xs with
  | nil =>
    intro t0
    exact ⟨LoopExit.finished, t0, 0, rfl, by simp, Or.inl rfl⟩
  | cons x xs ih =>
    intro t0
    rcases hc : create t0.server x with ⟨s2, _ | e⟩
    · obtain ⟨exit, t, k, hrun, hcalls, hexit⟩ := ih ⟨s2, t0.calls ++ [x], t0.count + 1⟩
      refine ⟨exit, t, k + 1, ?_, ?_, ?_⟩
      · simp only [List.map_cons, createLoop, hc]
        exact hrun
      · rw [hcalls]
        simp
      · rcases hexit with h | h | ⟨a, ha, st, err, herr, h⟩
        · exact Or.inl h
        · exact Or.inr (Or.inl h)
        · exact Or.inr (Or.inr ⟨a, List.mem_cons_of_mem _ ha, st, err, herr, h⟩)
    · by_cases hae : apierrors.IsAlreadyExists e = true
      · refine ⟨LoopExit.returned none, ⟨s2, t0.calls ++ [x], t0.count⟩, 1, ?_, by simp,
          Or.inr (Or.inl rfl)⟩
        simp [createLoop, hc, hae]
      · refine ⟨LoopExit.returned (some (cmdutil.AddSourceToErr goQuote "creating" x.Source e)),
          ⟨s2, t0.calls ++ [x], t0.count⟩, 1, ?_, by simp, Or.inr (Or.inr ?_)⟩
        · simp [createLoop, hc, hae]
        · exact ⟨x, List.mem_cons_self _ _, t0.server, e, by rw [hc], rfl⟩

/-! ## Loader errors and the missing priority asset -/

/-- C11 (as stated, refuted): `r.Infos()` reports an error next to the one asset it
loaded. When the creation of that asset is refused, `createAssets` returns the annotated
creation error, and when it reports "already exists", `createAssets` returns nil; in
neither run is the loader's error returned. -/
theorem createAssets_loader_error_preempted :
    createAssets quotePlain (loadedWithError [corednsCm] (GoError.errorString "unable to decode"))
        (serverFailAfter 0 errForbidden) 0
        = some (some (cmdutil.AddSourceToErr quotePlain "creating" "coredns-cm.yaml" errForbidden),
            ⟨1, [corednsCm], 0⟩)
      ∧ cmdutil.AddSourceToErr quotePlain "creating" "coredns-cm.yaml" errForbidden
          ≠ GoError.errorString "unable to decode"
      ∧ createAssets quotePlain (loadedWithError [corednsCm] (GoError.errorString "unable to decode"))
          serverAllExist 0
        = some (none, ⟨1, [corednsCm], 0⟩) := by
  decide

/-- C11 (amended): with the validator and the default namespace obtained, an error of
`r.Err()` is returned as it is, before any creation call; an error of `r.Infos()` is
returned as it is, after the creation calls for the loaded assets in prioritized order,
when every one of these creations succeeds. -/
theorem createAssets_loader_error (goQuote : String → String) {σ : Type}
    (ld : Loaded)
    (create : σ → Info → σ × Option GoError) (s : σ) (e : GoError)
    (hv : ld.validatorErr = none) (hn : ld.namespaceErr = none) :
    (ld.resultErr = some e → createAssets goQuote ld create s = some (some e, ⟨s, [], 0⟩))
      ∧ (ld.resultErr = none → ld.infosErr = some e →
          ∀ (ys : List Info) (perr : Option GoError) (s1 : σ),
            prioritizeAssetCreation ld.infos AssetToPrioritize AssetType
              = some (ys.map some, perr) →
            succeedAll create ys s = some s1 →
            createAssets goQuote ld create s = some (some e, ⟨s1, ys, ys.length⟩)) := by
  constructor
  · intro hr
    unfold createAssets
    simp only [hv, hn, hr]
  · intro hr hie ys perr s1 hprio hall
    rw [createAssets_of_loaded goQuote ld create s _ perr hv hn hr hprio]
    have h := createLoop_succeedAll goQuote create ys [] ⟨s, [], 0⟩ s1 hall
    simp only [List.append_nil, List.nil_append, Nat.zero_add] at h
    rw [h]
    simp [createLoop, hie]

/-- Witness for C11 (amended): an error of `r.Err()`, and an error of `r.Infos()` next
to two loaded assets whose creations succeed. -/
theorem createAssets_loader_error_witness :
    createAssets quotePlain ⟨none, none, some (GoError.errorString "unable to decode"), [], none⟩
        serverOk 0
        = some (some (GoError.errorString "unable to decode"), ⟨0, [], 0⟩)
      ∧ createAssets quotePlain (loadedWithError [corednsCm, kubeDns] (GoError.errorString "unable to decode"))
          serverOk 0
        = some (some (GoError.errorString "unable to decode"),
            ⟨2, [kubeDns, corednsCm], [kubeDns, corednsCm].length⟩) :=
  ⟨(createAssets_loader_error quotePlain
      ⟨none, none, some (GoError.errorString "unable to decode"), [], none⟩ serverOk 0
      (GoError.errorString "unable to decode") rfl rfl).1 rfl,
    (createAssets_loader_error quotePlain
      (loadedWithError [corednsCm, kubeDns] (GoError.errorString "unable to decode")) serverOk 0
      (GoError.errorString "unable to decode") rfl rfl).2 rfl rfl
      [kubeDns, corednsCm] none 2 (by decide) (by decide)⟩

/-- C12: with the external steps succeeded and no loaded asset matching the priority
key, `createAssets` returns exactly what applying the loaded sequence in its original
order returns. It does not panic, its creation calls are an initial segment of the
original sequence, and the error it returns is nil, the error of `r.Infos()`, "no
objects passed to create", or the annotated error of a creation call: the "Asset not
found" error of the prioritizer has no way into the result. -/
theorem createAssets_priority_missing (goQuote : String → String) {σ : Type}
    (ld : Loaded)
    (create : σ → Info → σ × Option GoError) (s : σ) (xs : List Info)
    (hv : ld.validatorErr = none) (hn : ld.namespaceErr = none) (hr : ld.resultErr = none)
    (hinfos : ld.infos = xs.map some)
    (hno : ∀ x ∈ xs, matchesKey AssetToPrioritize AssetType x = false) :
    createAssets goQuote ld create s = applySequence goQuote ld create s (xs.map some)
      ∧ ∃ r t k, createAssets goQuote ld create s = some (r, t) ∧ t.calls = xs.take k
          ∧ (r = none ∨ r = ld.infosErr
              ∨ r = some (fmt.Errorf "no objects passed to create")
              ∨ ∃ a ∈ xs, ∃ st err, (create st a).2 = some err
                  ∧ r = some (cmdutil.AddSourceToErr goQuote "creating" a.Source err)) := by
  have hprio : prioritizeAssetCreation ld.infos AssetToPrioritize AssetType
      = some (xs.map some, some (errors.New ("Asset not found " ++ AssetToPrioritize))) := by
    rw [hinfos]
    apply prioritizeAssetCreation_of_not_any
    rw [List.any_eq_false]
    intro x hx
    simp [hno x hx]
  have heq : createAssets goQuote ld create s = applySequence goQuote ld create s (xs.map some) := by
    rw [createAssets_of_loaded goQuote ld create s _ _ hv hn hr hprio]
    rfl
  refine ⟨heq, ?_⟩
  rw [heq]
  unfold applySequence
  obtain ⟨exit, t, k, hrun, hcalls, hexit⟩ := createLoop_map_some goQuote create xs ⟨s, [], 0⟩
  rw [hrun]
  simp only [List.nil_append] at hcalls
  rcases hexit with h | h | ⟨a, ha, st, err, herr, h⟩
  · subst h
    cases hie : ld.infosErr with
    | some e => exact ⟨some e, t, k, rfl, hcalls, Or.inr (Or.inl rfl)⟩
    | none =>
      by_cases hc : t.count = 0
      · exact ⟨some (fmt.Errorf "no objects passed to create"), t, k, by simp [hc], hcalls,
          Or.inr (Or.inr (Or.inl rfl))⟩
      · exact ⟨none, t, k, by simp [hc], hcalls, Or.inl rfl⟩
  · subst h
    exact ⟨none, t, k, rfl, hcalls, Or.inl rfl⟩
  · subst h
    exact ⟨_, t, k, rfl, hcalls, Or.inr (Or.inr (Or.inr ⟨a, ha, st, err, herr, rfl⟩))⟩

/-- Witness for C12 on `[coredns-cm, kube-scheduler]` with every creation succeeding. -/
theorem createAssets_priority_missing_witness :
    createAssets quotePlain (loadedOk [corednsCm, scheduler]) serverOk 0
        = applySequence quotePlain (loadedOk [corednsCm, scheduler]) serverOk 0
            ([corednsCm, scheduler].map some)
      ∧ ∃ r t k, createAssets quotePlain (loadedOk [corednsCm, scheduler]) serverOk 0 = some (r, t)
          ∧ t.calls = [corednsCm, scheduler].take k
          ∧ (r = none ∨ r = (loadedOk [corednsCm, scheduler]).infosErr
              ∨ r = some (fmt.Errorf "no objects passed to create")
              ∨ ∃ a ∈ [corednsCm, scheduler], ∃ st err, (serverOk st a).2 = some err
                  ∧ r = some (cmdutil.AddSourceToErr quotePlain "creating" a.Source err)) :=
  createAssets_priority_missing quotePlain (loadedOk [corednsCm, scheduler]) serverOk 0
    [corednsCm, scheduler] rfl rfl rfl rfl (by decide)

/-! ## The probes and the poller -/

/-- The poller stops at the first invocation of a probe that returns an error,
whatever flag comes with it and however many ticks remain. -/
theorem Poll_of_error {σ : Type} (fn : σ → Option ((Bool × Option GoError) × σ))
    (s s1 : σ) (b : Bool) (err : GoError) (h : fn s = some ((b, some err), s1)) (ticks : Nat) :
    wait.Poll ticks fn s = some (some err, s1) := by
  unfold wait.Poll
  cases ticks <;> simp [wait.WaitFor, h]

/-- Polling the readiness probe always ends, with nil or with the timeout error. -/
theorem Poll_upFn {σ : Type} (cl : Cluster σ) :
    ∀ (ticks : Nat) (s : σ), ∃ r s1, wait.Poll ticks (upFn cl) s = some (r, s1)
      ∧ (r = none ∨ r = some wait.ErrWaitTimeout) := by
  intro ticks
  induction ticks with
  | zero =>
    intro s
    rcases hc : cl.apiTest s with ⟨s2, _ | e⟩
    · exact ⟨none, s2, by simp [wait.Poll, wait.WaitFor, upFn, hc], Or.inl rfl⟩
    · exact ⟨some wait.ErrWaitTimeout, s2, by simp [wait.Poll, wait.WaitFor, upFn, hc],
        Or.inr rfl⟩
  | succ n ih =>
    intro s
    rcases hc : cl.apiTest s with ⟨s2, _ | e⟩
    · exact ⟨none, s2, by simp [wait.Poll, wait.WaitFor, upFn, hc], Or.inl rfl⟩
    · obtain ⟨r, s1, hrun, hr⟩ := ih s2
      refine ⟨r, s1, ?_, hr⟩
      rw [← hrun]
      simp [wait.Poll, wait.WaitFor, upFn, hc]

/-- C13 (the code at a not-found of the system namespace): on a cluster whose system
namespace becomes visible only later, the first apply attempt fails with the not-found
of `kube-system`; `createFn` returns completed = true together with that error, and
`CreateAssets` returns "Failed to create assets" after this single attempt with three
ticks of the apply phase left, although the next attempt would have succeeded. -/
theorem createFn_system_namespace_eval :
    shouldRetry errSystemNamespaceNotFound = some false
      ∧ completedFlag errSystemNamespaceNotFound = some true
      ∧ createFn quotePlain clusterNamespaceLate 1
        = some ((true, some (cmdutil.AddSourceToErr quotePlain "creating" "kube-dns-svc.yaml"
            errSystemNamespaceNotFound)), 2)
      ∧ CreateAssets quotePlain clusterNamespaceLate 3 3 0
        = some (some (GoError.errorString
            "Failed to create assets: error when creating \"kube-dns-svc.yaml\": namespaces \"kube-system\" not found"),
            2)
      ∧ createFn quotePlain clusterNamespaceLate 2 = some ((true, none), 4) := by
  decide

/-- C14 (as stated, refuted): every creation fails with a not-found that carries no
details, a failure that is no conflict. The apply attempt returns that error, annotated;
`createFn` then panics inside `shouldRetry` and returns nothing, neither a flag nor the
error, and so does `CreateAssets`. -/
theorem createFn_not_found_no_details :
    apierrors.IsNotFound errNotFoundNoDetails = true
      ∧ apierrors.IsAlreadyExists errNotFoundNoDetails = false
      ∧ createAssets quotePlain (clusterNoDetails.load 1) clusterNoDetails.create 1
        = some (some (GoError.statusError
            ⟨"error when creating \"kube-dns-svc.yaml\": the server could not find the requested resource",
              "NotFound", none, 404⟩), ⟨2, [kubeDns], 0⟩)
      ∧ createFn quotePlain clusterNoDetails 1 = none
      ∧ CreateAssets quotePlain clusterNoDetails 3 3 0 = none := by
  decide

/-- C14 (amended): when an apply attempt fails with a not-found `*StatusError` whose details name
a target other than the system namespace, or with an error that is neither a not-found
nor an "already exists", `createFn` returns completed = true together with that error,
and the poll of the apply phase returns that error after this one attempt, however many
ticks remain. -/
theorem createFn_fatal (goQuote : String → String) {σ : Type}
    (cl : Cluster σ) (s : σ) (err : GoError) (t : Applied σ)
    (hrun : createAssets goQuote (cl.load s) cl.create s = some (some err, t))
    (hkind : (∃ st d, err = GoError.statusError st ∧ apierrors.IsNotFound err = true
                ∧ st.Details = some d
                ∧ ¬ (d.Name = api.NamespaceSystem ∧ d.Kind = "namespaces"))
              ∨ (apierrors.IsNotFound err = false ∧ apierrors.IsAlreadyExists err = false)) :
    createFn goQuote cl s = some ((true, some err), t.server)
      ∧ ∀ ticks, wait.Poll ticks (createFn goQuote cl) s = some (some err, t.server) := by
  have hflag : completedFlag err = some true := by
    rcases hkind with ⟨st, d, he, hnf, hd, hne⟩ | ⟨hnf, hae⟩
    · subst he
      have hb : (d.Name == api.NamespaceSystem && d.Kind == "namespaces") = false := by
        rw [Bool.eq_false_iff]
        intro hc
        simp only [Bool.and_eq_true, beq_iff_eq] at hc
        exact hne hc
      simp [completedFlag, shouldRetry, hnf, hd, hb]
    · simp [completedFlag, shouldRetry, shouldQuit, hnf, hae]
  have hfn : createFn goQuote cl s = some ((true, some err), t.server) := by
    simp [createFn, hrun, hflag]
  exact ⟨hfn, fun ticks => Poll_of_error _ s t.server true err hfn ticks⟩

/-- Witness for C14 (amended): every creation is refused with a permission failure. -/
theorem createFn_fatal_witness :
    createFn quotePlain clusterForbidden 1
        = some ((true, some (cmdutil.AddSourceToErr quotePlain "creating" "kube-dns-svc.yaml" errForbidden)),
            (⟨2, [kubeDns], 0⟩ : Applied Nat).server)
      ∧ ∀ ticks, wait.Poll ticks (createFn quotePlain clusterForbidden) 1
          = some (some (cmdutil.AddSourceToErr quotePlain "creating" "kube-dns-svc.yaml" errForbidden),
              (⟨2, [kubeDns], 0⟩ : Applied Nat).server) :=
  createFn_fatal quotePlain clusterForbidden 1
    (cmdutil.AddSourceToErr quotePlain "creating" "kube-dns-svc.yaml" errForbidden) ⟨2, [kubeDns], 0⟩
    (by decide) (Or.inr (by decide))

/-- C15: `upFn` never returns an error: it returns `(true, nil)` when `apiTest` succeeds
and `(false, nil)` when it fails. Hence polling it ends only with nil or with the timeout
error, and after a failed readiness call with ticks left the poll goes on with the next
call. -/
theorem upFn_never_errors {σ : Type} (cl : Cluster σ) (s : σ) :
    (∃ b, upFn cl s = some ((b, none), (cl.apiTest s).1)
        ∧ (b = true ↔ (cl.apiTest s).2 = none))
      ∧ (∀ ticks, ∃ r s1, wait.Poll ticks (upFn cl) s = some (r, s1)
          ∧ (r = none ∨ r = some wait.ErrWaitTimeout))
      ∧ (∀ n, (cl.apiTest s).2 ≠ none →
          wait.Poll (n + 1) (upFn cl) s = wait.Poll n (upFn cl) (cl.apiTest s).1) := by
  refine ⟨?_, fun ticks => Poll_upFn cl ticks s, ?_⟩
  · rcases hc : cl.apiTest s with ⟨s2, _ | e⟩
    · exact ⟨true, by simp [upFn, hc], by simp⟩
    · exact ⟨false, by simp [upFn, hc], by simp⟩
  · intro n hfail
    rcases hc : cl.apiTest s with ⟨s2, _ | e⟩
    · rw [hc] at hfail
      exact absurd rfl hfail
    · simp [wait.Poll, wait.WaitFor, upFn, hc]

/-- Witness for C15: the first readiness call on a cluster whose API answers late. -/
theorem upFn_never_errors_witness :
    (clusterApiLate.apiTest 0).2 ≠ none
      ∧ wait.Poll (2 + 1) (upFn clusterApiLate) 0
          = wait.Poll 2 (upFn clusterApiLate) (clusterApiLate.apiTest 0).1 :=
  ⟨by decide, (upFn_never_errors clusterApiLate 0).2.2 2 (by decide)⟩

/-- C17 (as stated, refuted): on a not-found `*StatusError` without details
`shouldRetry` panics, and with it the flag expression and `createFn`, while `shouldQuit`
alone returns true, as does the expression with `shouldQuit` evaluated first. -/
theorem completedFlag_not_found_no_details :
    apierrors.IsNotFound errNotFoundNoDetails = true
      ∧ shouldRetry errNotFoundNoDetails = none
      ∧ completedFlag errNotFoundNoDetails = none
      ∧ shouldQuit errNotFoundNoDetails = true
      ∧ completedFlagQuitFirst errNotFoundNoDetails = some true := by
  decide

/-- C17 (amended): for every error that is not a not-found, and for every not-found
`*StatusError` that carries details, the flag `shouldRetry(err) || shouldQuit(err)` is
computed and equals `shouldQuit(err)`: `shouldRetry(err)` implies `shouldQuit(err)`, the
flag is true exactly when the error is not an "already exists", and evaluating
`shouldQuit` first gives the same flag. -/
theorem completedFlag_eq_shouldQuit (err : GoError)
    (h : apierrors.IsNotFound err = false
          ∨ ∃ st d, err = GoError.statusError st ∧ st.Details = some d) :
    completedFlag err = some (shouldQuit err)
      ∧ (shouldRetry err = some true → shouldQuit err = true)
      ∧ (completedFlag err = some true ↔ apierrors.IsAlreadyExists err = false)
      ∧ completedFlagQuitFirst err = completedFlag err := by
  have hq : apierrors.IsNotFound err = true → shouldQuit err = true := by
    intro hnf
    have hr : apierrors.reasonForError err = apierrors.StatusReasonNotFound := by
      simpa [apierrors.IsNotFound] using hnf
    simp [shouldQuit, apierrors.IsAlreadyExists, hr, apierrors.StatusReasonNotFound,
      apierrors.StatusReasonAlreadyExists]
  have hsome : ∃ b, shouldRetry err = some b ∧ (b = true → shouldQuit err = true) := by
    by_cases hnf : apierrors.IsNotFound err = true
    · rcases h with h | ⟨st, d, he, hd⟩
      · rw [h] at hnf
        exact absurd hnf (by simp)
      · subst he
        refine ⟨!(d.Name == api.NamespaceSystem && d.Kind == "namespaces"), ?_,
          fun _ => hq hnf⟩
        simp only [shouldRetry, hnf, if_true, hd]
    · exact ⟨false, by simp [shouldRetry, hnf], by simp⟩
  obtain ⟨b, hb, himp⟩ := hsome
  have hflag : completedFlag err = some (shouldQuit err) := by
    cases b with
    | true => simp [completedFlag, hb, himp rfl]
    | false => simp [completedFlag, hb]
  refine ⟨hflag, ?_, ?_, ?_⟩
  · intro hr
    rw [hb] at hr
    exact himp (by simpa using hr)
  · rw [hflag]
    simp [shouldQuit]
  · rw [hflag]
    unfold completedFlagQuitFirst
    cases hsq : shouldQuit err with
    | true => simp
    | false =>
      cases b with
      | true => rw [himp rfl] at hsq; exact absurd hsq (by simp)
      | false => simp [hb]

/-- Witness for C17 (amended): a not-found of another namespace, on which `shouldRetry`
returns true. -/
theorem completedFlag_eq_shouldQuit_witness :
    completedFlag errOtherNamespaceNotFound = some (shouldQuit errOtherNamespaceNotFound)
      ∧ (shouldRetry errOtherNamespaceNotFound = some true →
          shouldQuit errOtherNamespaceNotFound = true)
      ∧ (completedFlag errOtherNamespaceNotFound = some true ↔
          apierrors.IsAlreadyExists errOtherNamespaceNotFound = false)
      ∧ completedFlagQuitFirst errOtherNamespaceNotFound
          = completedFlag errOtherNamespaceNotFound :=
  completedFlag_eq_shouldQuit errOtherNamespaceNotFound
    (Or.inr ⟨_, _, rfl, rfl⟩)

/-! ## The prioritized sequence when several assets match -/

/-- A list with an element satisfying `p` splits around the last such element. -/
theorem split_at_last {α : Type} (p : α → Bool) :
    ∀ xs : List α, xs.any p = true →
      ∃ pre y post, xs = pre ++ y :: post ∧ p y = true ∧ ∀ z ∈ post, p z = false := by
  intro xs
  induction xs with
  | nil => intro h; simp at h
  | cons x xs ih =>
    intro h
    by_cases hrest : xs.any p = true
    · obtain ⟨pre, y, post, hxs, hy, hpost⟩ := ih hrest
      exact ⟨x :: pre, y, post, by rw [hxs]; rfl, hy, hpost⟩
    · have hx : p x = true := by
        simp only [List.any_cons, Bool.or_eq_true] at h
        rcases h with h | h
        · exact h
        · exact absurd h hrest
      refine ⟨[], x, xs, rfl, hx, ?_⟩
      intro z hz
      have hfalse : xs.any p = false := by simpa using hrest
      rw [List.any_eq_false] at hfalse
      simpa using hfalse z hz

/-- With `y` the last matching asset of the input, `prioritizeAssetCreation` returns
`y` followed by the non-matching assets. -/
theorem prioritizeAssetCreation_of_last (a ty : String) (pre post : List Info) (y : Info)
    (hy : matchesKey a ty y = true) (hpost : ∀ z ∈ post, matchesKey a ty z = false) :
    prioritizeAssetCreation ((pre ++ y :: post).map some) a ty
      = some ((y :: (pre.filter (fun x => !matchesKey a ty x) ++ post)).map some, none) := by
  have hany : (pre ++ y :: post).any (matchesKey a ty) = true := by simp [hy]
  have hf1 : post.filter (matchesKey a ty) = [] := by
    rw [List.filter_eq_nil_iff]
    intro z hz
    simp [hpost z hz]
  have hf2 : post.filter (fun z => !matchesKey a ty z) = post := by
    rw [List.filter_eq_self]
    intro z hz
    simp [hpost z hz]
  rw [prioritizeAssetCreation_of_any a ty _ hany]
  simp [List.filter_append, List.filter_cons, hy, hf1, hf2]

/-- C16: when at least one asset matches the priority key, the input splits as
`pre ++ y :: post` with `y` the last matching asset, and `prioritizeAssetCreation`
returns, without error, `y` followed by the non-matching assets of the input in input
order. Every element of the output is a non-nil asset of the input, `y` is its only
matching element, and its length is `n - k + 1` for `n` inputs of which `k` match. -/
theorem prioritizeAssetCreation_last_match (a ty : String) (xs : List Info)
    (h : xs.any (matchesKey a ty) = true) :
    ∃ pre y post, xs = pre ++ y :: post ∧ matchesKey a ty y = true
      ∧ (∀ z ∈ post, matchesKey a ty z = false)
      ∧ prioritizeAssetCreation (xs.map some) a ty
          = some ((y :: xs.filter (fun x => !matchesKey a ty x)).map some, none)
      ∧ (∀ z ∈ y :: xs.filter (fun x => !matchesKey a ty x), z ∈ xs)
      ∧ none ∉ (y :: xs.filter (fun x => !matchesKey a ty x)).map some
      ∧ (y :: xs.filter (fun x => !matchesKey a ty x)).countP (matchesKey a ty) = 1
      ∧ (y :: xs.filter (fun x => !matchesKey a ty x)).length
          = xs.length - xs.countP (matchesKey a ty) + 1 := by
  obtain ⟨pre, y, post, hxs, hy, hpost⟩ := split_at_last _ xs h
  have hfilter : xs.filter (fun x => !matchesKey a ty x)
      = pre.filter (fun x => !matchesKey a ty x) ++ post := by
    have hf2 : post.filter (fun z => !matchesKey a ty z) = post := by
      rw [List.filter_eq_self]
      intro z hz
      simp [hpost z hz]
    rw [hxs]
    simp [List.filter_append, List.filter_cons, hy, hf2]
  refine ⟨pre, y, post, hxs, hy, hpost, ?_, ?_, ?_, ?_, ?_⟩
  · rw [hfilter]
    conv_lhs => rw [hxs]
    exact prioritizeAssetCreation_of_last a ty pre post y hy hpost
  · intro z hz
    rcases List.mem_cons.mp hz with rfl | hz
    · rw [hxs]; simp
    · exact List.mem_of_mem_filter hz
  · simp
  · rw [List.countP_cons_of_pos _ _ hy, List.countP_eq_length_filter, List.filter_filter]
    simp
  · have hlen := List.length_eq_countP_add_countP (p := matchesKey a ty) xs
    have hcnt : (xs.filter (fun x => !matchesKey a ty x)).length
        = xs.countP (fun x => !matchesKey a ty x) :=
      (List.countP_eq_length_filter (p := fun x => !matchesKey a ty x) xs).symm
    have hsame : xs.countP (fun x => decide ¬matchesKey a ty x = true)
        = xs.countP (fun x => !matchesKey a ty x) := by
      congr 1
      funext x
      cases matchesKey a ty x <;> simp
    rw [hsame] at hlen
    simp only [List.length_cons, hcnt]
    omega

/-- Witness for C16 on `[kube-dns (default), coredns-cm, kube-dns (kube-system)]`. -/
theorem prioritizeAssetCreation_last_match_witness :
    ∃ pre y post, [kubeDnsDefault, corednsCm, kubeDns] = pre ++ y :: post
      ∧ matchesKey AssetToPrioritize AssetType y = true
      ∧ (∀ z ∈ post, matchesKey AssetToPrioritize AssetType z = false)
      ∧ prioritizeAssetCreation ([kubeDnsDefault, corednsCm, kubeDns].map some)
          AssetToPrioritize AssetType
          = some ((y :: [kubeDnsDefault, corednsCm, kubeDns].filter
              (fun x => !matchesKey AssetToPrioritize AssetType x)).map some, none)
      ∧ (∀ z ∈ y :: [kubeDnsDefault, corednsCm, kubeDns].filter
            (fun x => !matchesKey AssetToPrioritize AssetType x),
          z ∈ [kubeDnsDefault, corednsCm, kubeDns])
      ∧ none ∉ (y :: [kubeDnsDefault, corednsCm, kubeDns].filter
            (fun x => !matchesKey AssetToPrioritize AssetType x)).map some
      ∧ (y :: [kubeDnsDefault, corednsCm, kubeDns].filter
            (fun x => !matchesKey AssetToPrioritize AssetType x)).countP
              (matchesKey AssetToPrioritize AssetType) = 1
      ∧ (y :: [kubeDnsDefault, corednsCm, kubeDns].filter
            (fun x => !matchesKey AssetToPrioritize AssetType x)).length
          = [kubeDnsDefault, corednsCm, kubeDns].length
            - [kubeDnsDefault, corednsCm, kubeDns].countP
                (matchesKey AssetToPrioritize AssetType) + 1 :=
  prioritizeAssetCreation_last_match AssetToPrioritize AssetType
    [kubeDnsDefault, corednsCm, kubeDns] (by decide)

/-- C18: for every sequence of assets and every priority key, `prioritizeAssetCreation`
returns a sequence of assets on which it returns that same sequence again, with the same
error result: the "Asset not found" error on the second pass exactly when on the
first. -/
theorem prioritizeAssetCreation_idempotent (a ty : String) (xs : List Info) :
    ∃ (ys : List Info) (e : Option GoError),
      prioritizeAssetCreation (xs.map some) a ty = some (ys.map some, e)
        ∧ prioritizeAssetCreation (ys.map some) a ty = some (ys.map some, e)
        ∧ (e = none ↔ xs.any (matchesKey a ty) = true) := by
  cases h : xs.any (matchesKey a ty) with
  | false =>
    have h1 := prioritizeAssetCreation_of_not_any a ty xs h
    exact ⟨xs, _, h1, h1, by simp [errors.New]⟩
  | true =>
    obtain ⟨pre, y, post, hxs, hy, hpost⟩ := split_at_last _ xs h
    have hfirst := prioritizeAssetCreation_of_last a ty pre post y hy hpost
    have hrest : ∀ z ∈ pre.filter (fun x => !matchesKey a ty x) ++ post,
        matchesKey a ty z = false := by
      intro z hz
      rcases List.mem_append.mp hz with hz | hz
      · have := (List.mem_filter.mp hz).2
        simpa using this
      · exact hpost z hz
    have hsecond := prioritizeAssetCreation_of_last a ty []
      (pre.filter (fun x => !matchesKey a ty x) ++ post) y hy hrest
    simp only [List.nil_append, List.filter_nil] at hsecond
    refine ⟨y :: (pre.filter (fun x => !matchesKey a ty x) ++ post), none, ?_, hsecond, by simp⟩
    rw [hxs]
    exact hfirst

end Bootkube
